import Mathlib

/-!
Verification of the MoodMate web application (a Flask app with a sentiment
endpoint and a chat-relay endpoint) against its design specification.

The embedding below translates the two request handlers of `endpoints.py`
into pure Lean functions:

* `analyze_sentiment` embeds the handler of `POST /api/analyze`
  (endpoints.py lines 64-106).  The TextBlob lexicon scorer is an external
  library call and is passed as an explicit `sentiment : String → ℚ × ℚ`
  argument (polarity, subjectivity); Python floats are modelled as rationals.
  The JSON request body is modelled as an optional association list
  (`none` = absent/falsy body, mirroring `if not data or 'text' not in data`).

* `chat` embeds the handler of `POST /api/chat` (endpoints.py lines 109-264).
  The environment credential `GEMINI_API_KEY` is an `Option String` argument
  (`os.getenv` yields `None` when unset; the code treats `None` and `""` both
  as falsy).  The knowledge-base text loaded at startup is a `String`
  argument.  The outbound `requests.post` call is modelled by an oracle
  `upstream : OutboundRequest → UpstreamOutcome`: the handler builds the
  exact request record (URL, key header, contents, generation parameters,
  safety settings, 30-second timeout) and the oracle returns either an HTTP
  response (status, raw body text, and the body's JSON parse when it
  parses), a timeout, or a transport failure — exactly the cases the
  handler's `except` clauses distinguish.

JSON values are modelled by the inductive `J`; Python truthiness of a JSON
value is `pyTruthy`.  Each handler's possible `return jsonify(...), code`
outcomes are modelled by the inductives `AnalyzeResult` / `ChatResult`
together with the HTTP status maps `analyzeStatus` / `chatStatus`.
-/

/-- JSON values, as delivered by `request.get_json()` / `response.json()`.
Objects are association lists (Python dicts have unique keys; lookup takes
the first binding). -/
inductive J where
  | null : J
  | bool : Bool → J
  | num : ℚ → J
  | str : String → J
  | arr : List J → J
  | obj : List (String × J) → J

/-- Python truthiness of a JSON value (`None`, `False`, `0`, `""`, `[]`,
`{}` are falsy; everything else is truthy). -/
def pyTruthy : J → Bool
  | J.null => false
  | J.bool b => b
  | J.num q => decide (q ≠ 0)
  | J.str s => !s.isEmpty
  | J.arr [] => false
  | J.arr (_ :: _) => true
  | J.obj [] => false
  | J.obj (_ :: _) => true

/-- `round(x, 2)` of endpoints.py lines 100-101: Python 3 `round` rounds
half to even.  Modelled on the exact rational value. -/
def roundHalfToEven (q : ℚ) : ℤ :=
  let f : ℤ := ⌊q⌋
  let r : ℚ := q - (f : ℚ)
  if r < 1/2 then f
  else if 1/2 < r then f + 1
  else if f % 2 = 0 then f else f + 1

/-- Round a rational to two decimal places, Python `round(x, 2)` style. -/
def round2 (q : ℚ) : ℚ := ((roundHalfToEven (q * 100) : ℤ) : ℚ) / 100

/-- The five-bucket mood classification of endpoints.py lines 76-95
(`if polarity > 0.3: ... elif polarity > 0: ... elif polarity < -0.3: ...
elif polarity < 0: ... else: ...`).  Returns (emoji, mood, color) exactly as
assigned by the chain. -/
def classifyMood (p : ℚ) : String × String × String :=
  if p > 3/10 then ("😊", "Happy", "#10b981")
  else if p > 0 then ("🙂", "Slightly Positive", "#84cc16")
  else if p < -3/10 then ("😢", "Sad", "#ef4444")
  else if p < 0 then ("😕", "Slightly Negative", "#f97316")
  else ("😐", "Neutral", "#6b7280")

/-- Outcome of the `/api/analyze` handler:
`invalidInput` = `({'error': 'No text provided'}, 400)` (line 69);
`success e m pol subj c` = the 200 payload of lines 97-104;
`internalError` = the generic `except` of lines 105-106 (reached when the
`text` value is not a string, since `TextBlob` then raises). -/
inductive AnalyzeResult where
  | invalidInput : AnalyzeResult
  | success : String → String → ℚ → ℚ → String → AnalyzeResult
  | internalError : AnalyzeResult
deriving DecidableEq, Repr

/-- HTTP status attached to each `AnalyzeResult` by the handler. -/
def analyzeStatus : AnalyzeResult → Nat
  | AnalyzeResult.invalidInput => 400
  | AnalyzeResult.success _ _ _ _ _ => 200
  | AnalyzeResult.internalError => 500

/-- The `/api/analyze` handler, endpoints.py lines 64-106.
`data = none` models an absent/unparsed body; `some fs` a JSON-object body.
The guard mirrors `if not data or 'text' not in data` (an empty dict is
falsy; key membership is association-list lookup). -/
def analyze_sentiment (sentiment : String → ℚ × ℚ)
    (data : Option (List (String × J))) : AnalyzeResult :=
  match data with
  | none => AnalyzeResult.invalidInput
  | some fs =>
    if fs.isEmpty || (fs.lookup "text").isNone then AnalyzeResult.invalidInput
    else
      match fs.lookup "text" with
      | some (J.str text) =>
        let polarity := (sentiment text).1
        let subjectivity := (sentiment text).2
        let res := classifyMood polarity
        AnalyzeResult.success res.1 res.2.1 (round2 polarity)
          (round2 subjectivity) res.2.2
      | _ => AnalyzeResult.internalError

/-- A concrete stand-in for the TextBlob scorer; on the empty string TextBlob
returns polarity 0.0 and subjectivity 0.0, which this function reproduces. -/
def zeroSentiment : String → ℚ × ℚ := fun _ => (0, 0)

/-- One turn of the caller-supplied chat history:
`{role: ..., content: ...}` (spec §3 ChatTurn). -/
structure ChatTurn where
  role : String
  content : String
deriving DecidableEq, Repr

/-- One element of the `contents` array sent to the completion API:
`{"role": r, "parts": [{"text": t}, ...]}`, with each part's text kept. -/
structure GContent where
  role : String
  parts : List String
deriving DecidableEq, Repr

/-- `recent_history = chat_history[-8:] if len(chat_history) > 8 else
chat_history` (endpoints.py line 167). -/
def recent_history (chatHistory : List ChatTurn) : List ChatTurn :=
  if chatHistory.length > 8 then chatHistory.drop (chatHistory.length - 8)
  else chatHistory

/-- `role = "user" if msg['role'] == "user" else "model"`
(endpoints.py line 169). -/
def upstreamRole (role : String) : String :=
  if role = "user" then "user" else "model"

/-- The system prompt text of endpoints.py lines 128-152 that precedes the
interpolated `{KNOWLEDGE_BASE}`. -/
def system_prompt_pre : String :=
  "You are MoodMate, a compassionate and supportive AI companion specializing in emotional wellbeing, mood management, and mental health support.\n\nYour purpose is to help people:\n- Understand and process their emotions\n- Develop healthy coping strategies\n- Track and reflect on their mood patterns\n- Learn about emotional intelligence and self-care\n- Feel heard, validated, and supported in a safe space\n\nKnowledge Base:\n"

/-- The system prompt text of endpoints.py lines 128-152 that follows the
interpolated `{KNOWLEDGE_BASE}`. -/
def system_prompt_post : String :=
  "\n\nGuidelines for your responses:\n1. Be warm, empathetic, and non-judgmental in all interactions\n2. Validate feelings and experiences without dismissing concerns\n3. Provide evidence-based coping strategies and emotional regulation techniques\n4. Use clear, structured formatting with headings when providing guidance\n5. If someone expresses thoughts of self-harm or suicide, provide crisis resources immediately\n6. Never diagnose mental health conditions - suggest professional help when appropriate\n7. Encourage healthy habits: sleep, exercise, social connection, and self-care\n8. Ask thoughtful follow-up questions to better understand emotional states\n9. Celebrate progress and positive moments, no matter how small\n10. Respect privacy and remind users that their conversations are confidential\n\nRemember: You\x27re a supportive companion, not a replacement for professional mental health care. Focus on empowerment, understanding, and practical emotional support."

/-- The f-string `system_prompt` of endpoints.py line 128: fixed text with
the knowledge-base text interpolated verbatim. -/
def system_prompt (kb : String) : String :=
  system_prompt_pre ++ kb ++ system_prompt_post

/-- The canned acknowledgment turn appended at endpoints.py lines 159-164. -/
def acknowledgment : String :=
  "I understand. I\x27m MoodMate, your caring AI companion for emotional wellbeing and support. I\x27m here to listen without judgment, help you understand your feelings, and guide you toward healthy coping strategies. Whether you\x27re having a tough day or want to celebrate a win, I\x27m here for you. How are you feeling today?"

/-- The `contents` array assembled by endpoints.py lines 125-179: system
prompt turn, canned acknowledgment turn, the truncated history turns, then
the current user message — built by successive `contents.append(...)`. -/
def buildContents (kb userMessage : String) (chatHistory : List ChatTurn) :
    List GContent :=
  let contents : List GContent := []
  let contents := contents ++ [GContent.mk "user" [system_prompt kb]]
  let contents := contents ++ [GContent.mk "model" [acknowledgment]]
  let contents := contents ++
    (recent_history chatHistory).map
      (fun msg => GContent.mk (upstreamRole msg.role) [msg.content])
  let contents := contents ++ [GContent.mk "user" [userMessage]]
  contents

/-- `GEMINI_API_URL` of endpoints.py line 12. -/
def GEMINI_API_URL : String :=
  "https://generativelanguage.googleapis.com/v1beta/models/gemini-2.0-flash:generateContent"

/-- The `safetySettings` list of endpoints.py lines 189-206
(category, threshold). -/
def safety_settings : List (String × String) :=
  [("HARM_CATEGORY_HARASSMENT", "BLOCK_MEDIUM_AND_ABOVE"),
   ("HARM_CATEGORY_HATE_SPEECH", "BLOCK_MEDIUM_AND_ABOVE"),
   ("HARM_CATEGORY_SEXUALLY_EXPLICIT", "BLOCK_MEDIUM_AND_ABOVE"),
   ("HARM_CATEGORY_DANGEROUS_CONTENT", "BLOCK_ONLY_HIGH")]

/-- The single outbound HTTPS POST issued by the relay: `request_body`
(lines 181-207), the `x-goog-api-key` header (lines 209-212) and the
`timeout=30` argument of `requests.post` (lines 214-219). -/
structure OutboundRequest where
  url : String
  apiKeyHeader : String
  contents : List GContent
  temperature : ℚ
  topK : ℕ
  topP : ℚ
  maxOutputTokens : ℕ
  safetySettings : List (String × String)
  timeoutSeconds : ℕ
deriving DecidableEq, Repr

/-- Assembles the outbound request exactly as endpoints.py lines 181-219:
temperature 0.9, topK 40, topP 0.95, maxOutputTokens 2048, the fixed safety
settings, and a 30-second timeout. -/
def mkOutboundRequest (apiKey : String) (contents : List GContent) :
    OutboundRequest :=
  OutboundRequest.mk GEMINI_API_URL apiKey contents (9/10) 40 (95/100) 2048
    safety_settings 30

/-- Result of the outbound call as the handler's `try`/`except` structure
distinguishes it: a response (HTTP status, raw body text, and the JSON parse
of the body when it parses), `requests.exceptions.Timeout`, or another
`requests.exceptions.RequestException` (transport failure). -/
inductive UpstreamOutcome where
  | response : Nat → String → Option J → UpstreamOutcome
  | timedOut : UpstreamOutcome
  | requestFailed : String → UpstreamOutcome

/-- Outcome of the `/api/chat` handler, one constructor per `return`:
`configError` = lines 112-115 (500); `invalidInput` = line 120 (400);
`ok v` = lines 245-248 (200, `v` the extracted part text);
`upstreamError status message rawBody` = lines 229-233 (500);
`noContent respData` = lines 250-253 (500, `details: str(response_data)`);
`timeoutError` = lines 255-256 (504); `networkError` = lines 257-258 (500);
`decodeError` = a 200 body that fails to parse as JSON (line 235, surfaced
via the decode/request exception clauses, 500); `internalError` = the
generic `except` of lines 261-264 (500). -/
inductive ChatResult where
  | configError : ChatResult
  | invalidInput : ChatResult
  | ok : J → ChatResult
  | upstreamError : Nat → J → String → ChatResult
  | noContent : J → ChatResult
  | timeoutError : ChatResult
  | networkError : String → ChatResult
  | decodeError : ChatResult
  | internalError : ChatResult

/-- HTTP status attached to each `ChatResult` by the handler. -/
def chatStatus : ChatResult → Nat
  | ChatResult.configError => 500
  | ChatResult.invalidInput => 400
  | ChatResult.ok _ => 200
  | ChatResult.upstreamError _ _ _ => 500
  | ChatResult.noContent _ => 500
  | ChatResult.timeoutError => 504
  | ChatResult.networkError _ => 500
  | ChatResult.decodeError => 500
  | ChatResult.internalError => 500

/-- Error-message extraction of endpoints.py lines 221-227 for a non-200
response: `error_json.get('error', {}).get('message', error_text)` under a
bare `except` that falls back to the raw body text.  `parsed = none` models
`response.json()` raising (unparseable body); a parsed value that is not an
object, or an `error` value that is not an object, makes `.get` raise, so
the bare `except` yields the raw text; a missing `error` key yields `{}`
whose `message` lookup returns the `error_text` default. -/
def extractErrorMessage (raw : String) (parsed : Option J) : J :=
  match parsed with
  | none => J.str raw
  | some (J.obj fs) =>
    match fs.lookup "error" with
    | some (J.obj efs) =>
      match efs.lookup "message" with
      | some m => m
      | none => J.str raw
    | some _ => J.str raw
    | none => J.str raw
  | some _ => J.str raw

/-- Success-path extraction of endpoints.py lines 235-253: the guard
`response_data.get('candidates') and len(...) > 0 and
candidates[0].get('content') and content.get('parts') and len(parts) > 0`
followed by `parts[0]['text']`.  A falsy guard value short-circuits to the
`No content generated` branch (`noContent`); a truthy value of the wrong
Python type makes the subsequent attribute/index access raise, landing in
the generic `except` (`internalError`), as does a first part without a
`text` key (`KeyError`). -/
def extractGenerated (respData : J) : ChatResult :=
  match respData with
  | J.obj fs =>
    match fs.lookup "candidates" with
    | none => ChatResult.noContent respData
    | some (J.arr []) => ChatResult.noContent respData
    | some (J.arr (c0 :: _)) =>
      match c0 with
      | J.obj cfs =>
        match cfs.lookup "content" with
        | none => ChatResult.noContent respData
        | some content =>
          if pyTruthy content then
            match content with
            | J.obj confs =>
              match confs.lookup "parts" with
              | none => ChatResult.noContent respData
              | some (J.arr []) => ChatResult.noContent respData
              | some (J.arr (p0 :: _)) =>
                match p0 with
                | J.obj pfs =>
                  match pfs.lookup "text" with
                  | some v => ChatResult.ok v
                  | none => ChatResult.internalError
                | _ => ChatResult.internalError
              | some v =>
                if pyTruthy v then ChatResult.internalError
                else ChatResult.noContent respData
            | _ => ChatResult.internalError
          else ChatResult.noContent respData
      | _ => ChatResult.internalError
    | some v =>
      if pyTruthy v then ChatResult.internalError
      else ChatResult.noContent respData
  | _ => ChatResult.internalError

/-- The `/api/chat` handler, endpoints.py lines 109-264.
`apiKey` is the `GEMINI_API_KEY` environment value (`none` = unset; the
code's `if not GEMINI_API_KEY` also treats `""` as missing); `kb` is the
startup-loaded knowledge-base text; `data` is the JSON body reduced to its
documented shape — `none` for an absent/falsy body, otherwise the optional
`message` string and the `history` list (`data.get('history', [])`); and
`upstream` is the outbound HTTPS call. -/
def chat (apiKey : Option String) (kb : String)
    (data : Option (Option String × List ChatTurn))
    (upstream : OutboundRequest → UpstreamOutcome) : ChatResult :=
  if apiKey.getD "" = "" then ChatResult.configError
  else
    match data with
    | none => ChatResult.invalidInput
    | some (none, _) => ChatResult.invalidInput
    | some (some userMessage, chatHistory) =>
      match upstream (mkOutboundRequest (apiKey.getD "")
          (buildContents kb userMessage chatHistory)) with
      | UpstreamOutcome.timedOut => ChatResult.timeoutError
      | UpstreamOutcome.requestFailed msg => ChatResult.networkError msg
      | UpstreamOutcome.response status text jsonBody =>
        if status ≠ 200 then
          ChatResult.upstreamError status (extractErrorMessage text jsonBody)
            text
        else
          match jsonBody with
          | none => ChatResult.decodeError
          | some j => extractGenerated j

/-- A 20-turn history used to instantiate the truncation theorem. -/
def turns20 : List ChatTurn := List.replicate 20 (ChatTurn.mk "user" "x")

/-- Upstream error body `{"error": {"message": "boom"}}`. -/
def boomBody : J := J.obj [("error", J.obj [("message", J.str "boom")])]

/-- A well-formed upstream success body whose first candidate's first part
carries the text `"hi there"`. -/
def okBody : J :=
  J.obj [("candidates", J.arr [J.obj [("content",
    J.obj [("parts", J.arr [J.obj [("text", J.str "hi there")]])])]])]

theorem round2_zero : round2 0 = 0 := by norm_num [round2, roundHalfToEven]

/-- Helper: the assembled `contents` list, flattened. -/
theorem buildContents_eq (kb userMessage : String)
    (chatHistory : List ChatTurn) :
    buildContents kb userMessage chatHistory =
      GContent.mk "user" [system_prompt kb] ::
        GContent.mk "model" [acknowledgment] ::
          ((recent_history chatHistory).map
            (fun msg => GContent.mk (upstreamRole msg.role) [msg.content]) ++
            [GContent.mk "user" [userMessage]]) := by
  simp [buildContents]

/-- C1: For every polarity value p, the classifier assigns exactly one of
five buckets by the ordered first-match-wins guard chain: p > 0.3 yields
Happy 😊 #10b981; 0 < p ≤ 0.3 yields Slightly Positive 🙂 #84cc16;
p < -0.3 yields Sad 😢 #ef4444; -0.3 ≤ p < 0 yields Slightly Negative 😕
#f97316; p = 0 yields Neutral 😐 #6b7280 — so the boundaries map
p = 0.3 to Slightly Positive, p = -0.3 to Slightly Negative, and p = 0 to
Neutral. -/
theorem classifyMood_buckets (p : ℚ) :
    (3/10 < p → classifyMood p = ("😊", "Happy", "#10b981")) ∧
    (0 < p → p ≤ 3/10 →
      classifyMood p = ("🙂", "Slightly Positive", "#84cc16")) ∧
    (p < -3/10 → classifyMood p = ("😢", "Sad", "#ef4444")) ∧
    (-3/10 ≤ p → p < 0 →
      classifyMood p = ("😕", "Slightly Negative", "#f97316")) ∧
    (p = 0 → classifyMood p = ("😐", "Neutral", "#6b7280")) := by
  unfold classifyMood
  refine ⟨?_, ?_, ?_, ?_, ?_⟩ <;> intros <;> split_ifs <;>
    first | rfl | linarith

/-- Witness for C1 at the three boundary polarities 0.3, -0.3 and 0. -/
theorem classifyMood_buckets_witness :
    classifyMood (3/10) = ("🙂", "Slightly Positive", "#84cc16") ∧
    classifyMood (-3/10) = ("😕", "Slightly Negative", "#f97316") ∧
    classifyMood 0 = ("😐", "Neutral", "#6b7280") :=
  ⟨(classifyMood_buckets (3/10)).2.1 (by norm_num) (by norm_num),
   (classifyMood_buckets (-3/10)).2.2.2.1 (by norm_num) (by norm_num),
   (classifyMood_buckets 0).2.2.2.2 rfl⟩

/-- C2 counterexample: a request whose `text` field is the empty string is
NOT rejected with InvalidInput — the handler only tests `'text' not in
data`, so `{"text": ""}` is scored (TextBlob gives polarity 0 on empty
text) and answered 200/success Neutral, not 400. -/
theorem analyze_empty_text_accepted :
    analyze_sentiment zeroSentiment (some [("text", J.str "")]) =
      AnalyzeResult.success "😐" "Neutral" 0 0 "#6b7280" ∧
    analyzeStatus (analyze_sentiment zeroSentiment
      (some [("text", J.str "")])) ≠ 400 := by
  constructor
  · norm_num [analyze_sentiment, zeroSentiment, classifyMood, round2_zero,
      List.lookup]
  · decide

/-- C2 (amended): the operation fails with InvalidInput (HTTP 400) exactly
when the body is absent/falsy or the `text` field is missing; a present but
empty `text` string is accepted and classified (HTTP 200). -/
theorem analyze_invalid_input_spec (sentiment : String → ℚ × ℚ) :
    analyzeStatus (analyze_sentiment sentiment none) = 400 ∧
    (∀ fs : List (String × J), fs.lookup "text" = none →
      analyzeStatus (analyze_sentiment sentiment (some fs)) = 400) ∧
    analyzeStatus (analyze_sentiment sentiment
      (some [("text", J.str "")])) = 200 := by
  refine ⟨rfl, ?_, rfl⟩
  intro fs h
  simp [analyze_sentiment, h, analyzeStatus]

/-- Witness for C2's amended theorem: a body without a `text` key is
rejected with 400. -/
theorem analyze_invalid_input_witness :
    analyzeStatus (analyze_sentiment zeroSentiment
      (some [("history", J.null)])) = 400 :=
  (analyze_invalid_input_spec zeroSentiment).2.1 [("history", J.null)] rfl

/-- C3: the relay forwards exactly the last min(n, 8) turns of the
caller-supplied history, dropping only older turns and preserving relative
order (the kept turns are a suffix); a history of length 20 yields exactly
its last 8 turns. -/
theorem recent_history_spec (h : List ChatTurn) :
    recent_history h = h.drop (h.length - 8) ∧
    (recent_history h).length = min h.length 8 ∧
    (h.length = 20 → recent_history h = h.drop 12) := by
  unfold recent_history
  split_ifs with hl
  · refine ⟨rfl, ?_, ?_⟩
    · rw [List.length_drop, Nat.min_eq_right (by omega : 8 ≤ h.length)]
      omega
    · intro h20
      rw [h20]
  · have h0 : h.length - 8 = 0 := by omega
    refine ⟨by rw [h0, List.drop_zero], ?_, ?_⟩
    · rw [Nat.min_eq_left (by omega : h.length ≤ 8)]
    · intro h20
      exact absurd h20 (by omega)

/-- Witness for C3 on a concrete history of length 20. -/
theorem recent_history_witness : recent_history turns20 = turns20.drop 12 :=
  (recent_history_spec turns20).2.2 (by simp [turns20])

/-- C4: the message sequence sent upstream is exactly, in order: the fixed
persona/system instruction turn (embedding the knowledge-base text
verbatim between two fixed text blocks), the fixed canned acknowledgment
turn for the assistant, the (at most 8) truncated history turns mapped to
user/model roles, and the current message as a user turn in last
position. -/
theorem chat_contents_spec (kb userMessage : String)
    (chatHistory : List ChatTurn) :
    buildContents kb userMessage chatHistory =
      GContent.mk "user" [system_prompt kb] ::
        GContent.mk "model" [acknowledgment] ::
          ((recent_history chatHistory).map
            (fun msg => GContent.mk (upstreamRole msg.role) [msg.content]) ++
            [GContent.mk "user" [userMessage]]) ∧
    system_prompt kb = system_prompt_pre ++ kb ++ system_prompt_post :=
  ⟨buildContents_eq kb userMessage chatHistory, rfl⟩

/-- C7: with no credential configured (environment value absent, or the
empty string, both falsy to `if not GEMINI_API_KEY`), the relay fails with
ConfigError (HTTP 500) for every body and every upstream behaviour — the
check precedes input validation and no outbound call is consulted. -/
theorem chat_config_error_spec (kb : String)
    (data : Option (Option String × List ChatTurn))
    (upstream : OutboundRequest → UpstreamOutcome) :
    chat none kb data upstream = ChatResult.configError ∧
    chat (some "") kb data upstream = ChatResult.configError ∧
    chatStatus ChatResult.configError = 500 :=
  ⟨rfl, rfl, rfl⟩

/-- C9: classify is a deterministic pure function of its input — two
invocations on identical text (under the same fixed lexicon scorer) return
identical results, every field included. -/
theorem analyze_deterministic (sentiment : String → ℚ × ℚ)
    (d1 d2 : Option (List (String × J))) (h : d1 = d2) :
    analyze_sentiment sentiment d1 = analyze_sentiment sentiment d2 := by
  rw [h]

/-- Witness for C9 on a concrete repeated request. -/
theorem analyze_deterministic_witness :
    analyze_sentiment zeroSentiment (some [("text", J.str "great day")]) =
      analyze_sentiment zeroSentiment (some [("text", J.str "great day")]) :=
  analyze_deterministic zeroSentiment _ _ rfl

/-- C10: within the forwarded history window the relay maps role "user" to
upstream role "user" and every other role string (including "assistant")
to "model"; no turn is rejected or dropped for an unrecognized role — the
assembled sequence contains one mapped entry per kept history turn, in
position, plus the two fixed leading turns and the final user message. -/
theorem chat_role_mapping_spec (kb userMessage : String)
    (chatHistory : List ChatTurn) :
    upstreamRole "user" = "user" ∧
    upstreamRole "assistant" = "model" ∧
    (∀ r : String, r ≠ "user" → upstreamRole r = "model") ∧
    (buildContents kb userMessage chatHistory).length =
      (recent_history chatHistory).length + 3 ∧
    (∀ i : ℕ, i < (recent_history chatHistory).length →
      (buildContents kb userMessage chatHistory).get? (i + 2) =
        ((recent_history chatHistory).get? i).map
          (fun msg => GContent.mk (upstreamRole msg.role) [msg.content])) := by
  refine ⟨rfl, rfl, ?_, ?_, ?_⟩
  · intro r hr
    simp [upstreamRole, hr]
  · rw [buildContents_eq]
    simp
  · intro i hi
    rw [buildContents_eq]
    have hi2 : i < ((recent_history chatHistory).map
        (fun msg => GContent.mk (upstreamRole msg.role) [msg.content])).length := by
      simpa using hi
    rw [show i + 2 = (i + 1) + 1 from rfl]
    rw [List.get?_cons_succ, List.get?_cons_succ, List.get?_append hi2,
      List.get?_map]

/-- Witness for C10: a turn with role "assistant" and one with an arbitrary
unrecognized role both map to upstream role "model". -/
theorem chat_role_mapping_witness :
    upstreamRole "assistant" = "model" ∧ upstreamRole "banana" = "model" :=
  ⟨(chat_role_mapping_spec "" "" []).2.1,
   (chat_role_mapping_spec "" "" []).2.2.1 "banana" (by decide)⟩

/-- C8: the outbound call carries a 30-second deadline, and when the
upstream call exceeds it (the `requests.exceptions.Timeout` path) the relay
fails with TimeoutError, surfaced as HTTP 504. -/
theorem chat_timeout_spec (k kb userMessage : String)
    (chatHistory : List ChatTurn)
    (upstream : OutboundRequest → UpstreamOutcome) (hk : k ≠ "") :
    (mkOutboundRequest k
      (buildContents kb userMessage chatHistory)).timeoutSeconds = 30 ∧
    (upstream (mkOutboundRequest k
        (buildContents kb userMessage chatHistory)) =
          UpstreamOutcome.timedOut →
      chat (some k) kb (some (some userMessage, chatHistory)) upstream =
        ChatResult.timeoutError) ∧
    chatStatus ChatResult.timeoutError = 504 := by
  refine ⟨rfl, ?_, rfl⟩
  intro hu
  simp [chat, hk, hu]

/-- Witness for C8 with a concrete request and a timing-out upstream. -/
theorem chat_timeout_witness :
    chat (some "key") "kb" (some (some "hello", []))
      (fun _ => UpstreamOutcome.timedOut) = ChatResult.timeoutError :=
  (chat_timeout_spec "key" "kb" "hello" []
    (fun _ => UpstreamOutcome.timedOut) (by decide)).2.1 rfl

/-- C5: when the upstream HTTP status is not 200 the relay fails with
UpstreamError (HTTP 500) whose message is the nested `error.message` field
when the body parses as JSON and carries one, and the raw body text when
the body does not parse; in particular HTTP 500 with
`{"error":{"message":"boom"}}` carries "boom". -/
theorem chat_upstream_error_spec (k kb userMessage : String)
    (chatHistory : List ChatTurn) (status : Nat) (text : String)
    (jsonBody : Option J) (upstream : OutboundRequest → UpstreamOutcome)
    (hk : k ≠ "")
    (hu : upstream (mkOutboundRequest k
        (buildContents kb userMessage chatHistory)) =
      UpstreamOutcome.response status text jsonBody)
    (hs : status ≠ 200) :
    chat (some k) kb (some (some userMessage, chatHistory)) upstream =
      ChatResult.upstreamError status (extractErrorMessage text jsonBody)
        text ∧
    (jsonBody = none → extractErrorMessage text jsonBody = J.str text) ∧
    (∀ fs efs (m : J), jsonBody = some (J.obj fs) →
      fs.lookup "error" = some (J.obj efs) →
      efs.lookup "message" = some m →
      extractErrorMessage text jsonBody = m) ∧
    chatStatus (ChatResult.upstreamError status
      (extractErrorMessage text jsonBody) text) = 500 := by
  refine ⟨?_, ?_, ?_, rfl⟩
  · simp [chat, hk, hu, hs]
  · intro h
    subst h
    rfl
  · intro fs efs m h1 h2 h3
    subst h1
    simp [extractErrorMessage, h2, h3]

/-- Witness for C5: upstream HTTP 500 with body
`{"error":{"message":"boom"}}` yields UpstreamError carrying "boom". -/
theorem chat_upstream_error_witness :
    chat (some "key") "kb" (some (some "hello", []))
        (fun _ => UpstreamOutcome.response 500 "raw" (some boomBody)) =
      ChatResult.upstreamError 500 (J.str "boom") "raw" := by
  have h := chat_upstream_error_spec "key" "kb" "hello" [] 500 "raw"
    (some boomBody)
    (fun _ => UpstreamOutcome.response 500 "raw" (some boomBody))
    (by decide) rfl (by decide)
  have h2 := h.2.2.1 [("error", J.obj [("message", J.str "boom")])]
    [("message", J.str "boom")] (J.str "boom") rfl rfl rfl
  rw [h.1, h2]

/-- C6: on upstream HTTP 200 the relay returns the text of the first
candidate's first content part verbatim (no post-processing or
truncation), and fails with the `No content generated` UpstreamError
(HTTP 500) when the expected shape is absent: no `candidates` key, empty
candidates, missing `content`, or missing/empty `parts`. -/
theorem chat_success_spec (k kb userMessage : String)
    (chatHistory : List ChatTurn) (text : String) (j : J)
    (upstream : OutboundRequest → UpstreamOutcome)
    (hk : k ≠ "")
    (hu : upstream (mkOutboundRequest k
        (buildContents kb userMessage chatHistory)) =
      UpstreamOutcome.response 200 text (some j)) :
    chat (some k) kb (some (some userMessage, chatHistory)) upstream =
      extractGenerated j ∧
    (∀ fs cfs confs pfs (cr pr : List J) (v : J),
      j = J.obj fs →
      fs.lookup "candidates" = some (J.arr (J.obj cfs :: cr)) →
      cfs.lookup "content" = some (J.obj confs) →
      confs.lookup "parts" = some (J.arr (J.obj pfs :: pr)) →
      pfs.lookup "text" = some v →
      extractGenerated j = ChatResult.ok v) ∧
    (∀ fs, j = J.obj fs → fs.lookup "candidates" = none →
      extractGenerated j = ChatResult.noContent j) ∧
    (∀ fs, j = J.obj fs → fs.lookup "candidates" = some (J.arr []) →
      extractGenerated j = ChatResult.noContent j) ∧
    (∀ fs cfs (cr : List J), j = J.obj fs →
      fs.lookup "candidates" = some (J.arr (J.obj cfs :: cr)) →
      cfs.lookup "content" = none →
      extractGenerated j = ChatResult.noContent j) ∧
    (∀ fs cfs confs (cr : List J), j = J.obj fs →
      fs.lookup "candidates" = some (J.arr (J.obj cfs :: cr)) →
      cfs.lookup "content" = some (J.obj confs) →
      confs.lookup "parts" = none →
      extractGenerated j = ChatResult.noContent j) ∧
    (∀ fs cfs confs (cr : List J), j = J.obj fs →
      fs.lookup "candidates" = some (J.arr (J.obj cfs :: cr)) →
      cfs.lookup "content" = some (J.obj confs) →
      confs.lookup "parts" = some (J.arr []) →
      extractGenerated j = ChatResult.noContent j) ∧
    (∀ v : J, chatStatus (ChatResult.ok v) = 200) ∧
    chatStatus (ChatResult.noContent j) = 500 := by
  refine ⟨?_, ?_, ?_, ?_, ?_, ?_, ?_, fun v => rfl, rfl⟩
  · simp [chat, hk, hu]
  · intro fs cfs confs pfs cr pr v h1 h2 h3 h4 h5
    subst h1
    cases confs with
    | nil => simp [List.lookup] at h4
    | cons a l => simp [extractGenerated, h2, h3, h4, h5, pyTruthy]
  · intro fs h1 h2
    subst h1
    simp [extractGenerated, h2]
  · intro fs h1 h2
    subst h1
    simp [extractGenerated, h2]
  · intro fs cfs cr h1 h2 h3
    subst h1
    simp [extractGenerated, h2, h3]
  · intro fs cfs confs cr h1 h2 h3 h4
    subst h1
    cases confs with
    | nil => simp [extractGenerated, h2, h3, pyTruthy]
    | cons a l => simp [extractGenerated, h2, h3, h4, pyTruthy]
  · intro fs cfs confs cr h1 h2 h3 h4
    subst h1
    cases confs with
    | nil => simp [List.lookup] at h4
    | cons a l => simp [extractGenerated, h2, h3, h4, pyTruthy]

/-- Witness for C6 on a well-formed 200 response: the relay answers with
the first part's text, verbatim. -/
theorem chat_success_witness :
    chat (some "key") "kb" (some (some "hello", []))
        (fun _ => UpstreamOutcome.response 200 "body" (some okBody)) =
      ChatResult.ok (J.str "hi there") := by
  have h := chat_success_spec "key" "kb" "hello" [] "body" okBody
    (fun _ => UpstreamOutcome.response 200 "body" (some okBody))
    (by decide) rfl
  have h2 := h.2.1
    [("candidates", J.arr [J.obj [("content",
      J.obj [("parts", J.arr [J.obj [("text", J.str "hi there")]])])]])]
    [("content", J.obj [("parts", J.arr [J.obj [("text", J.str "hi there")]])])]
    [("parts", J.arr [J.obj [("text", J.str "hi there")]])]
    [("text", J.str "hi there")] [] [] (J.str "hi there") rfl rfl rfl rfl rfl
  rw [h.1, h2]
